import Mathlib

/-!
Verification of the monorepo-example repository: an express server
(packages/simple-express-server/server.ts), a React client (App.tsx) and a
shared type package, plus the git-submodule workflow documented in README.md.
The server and client are embedded as pure functions; the network is an
abstract function from URLs to fetch outcomes.
-/

namespace MonorepoExample

/-! ## Model of lodash snakeCase (the only lodash call the server makes)

lodash `_.snakeCase(s)` removes apostrophes, deburrs, splits `s` into words
and joins their lowercasings with an underscore.  For an input made only of
ASCII letters and spaces — which `"Server data returned successfully"`, the
single string it is applied to in this repository, is — `deburr` is the
identity and lodash takes its ASCII word-splitting path (`reAsciiWord`,
maximal runs of alphanumeric characters).  The definitions below embed that
path. -/

def isApostropheChar (c : Char) : Bool :=
  c = Char.ofNat 39 || c = Char.ofNat 0x2019

/-- lodash reApos replacement: delete ASCII and typographic apostrophes. -/
def removeApostrophes (s : String) : String :=
  String.mk (s.data.filter (fun c => !(isApostropheChar c)))

/-- the character class of lodash reAsciiWord: ASCII alphanumerics and any
character above 0x7f. -/
def reAsciiWordChar (c : Char) : Bool :=
  let n := c.toNat
  (0x30 ≤ n && n ≤ 0x39) || (0x41 ≤ n && n ≤ 0x5a) ||
    (0x61 ≤ n && n ≤ 0x7a) || (0x80 ≤ n)

/-- split a string into the maximal runs of word characters (lodash
asciiWords). -/
def asciiWords (s : String) : List String :=
  let step : (List String × List Char) → Char → (List String × List Char) :=
    fun acc c =>
      if reAsciiWordChar c then (acc.1, c :: acc.2)
      else if acc.2 = [] then acc
      else (acc.1 ++ [String.mk acc.2.reverse], [])
  let fin := s.data.foldl step ([], [])
  if fin.2 = [] then fin.1 else fin.1 ++ [String.mk fin.2.reverse]

/-- JavaScript `word.toLowerCase()` on ASCII words, character by
character. -/
def asciiToLower (s : String) : String :=
  String.mk (s.data.map Char.toLower)

/-- lodash snakeCase on its ASCII path: words, lowercased, joined by an
underscore. -/
def snakeCase (s : String) : String :=
  String.intercalate "_" ((asciiWords (removeApostrophes s)).map asciiToLower)

/-! ## The shared type -/

/-- Modelled from the spec: the declaration published by the package
`@my-namespace/simple-shared-data`, whose source file is not part of this
repository snapshot; spec section 3: a record with a single field `payload`
of text type. -/
structure QueryPayload where
  payload : String
deriving Repr, DecidableEq

/-- the name `QueryPayload` as the server imports it (server.ts line 5,
from `@my-namespace/simple-shared-data`). -/
def ServerQueryPayload : Type := QueryPayload

/-- the name `QueryPayload` as the client imports it (App.tsx, from
`simple-express-server/server`, which takes it from the shared package). -/
def ClientQueryPayload : Type := QueryPayload

/-! ## JSON values and serialization

`res.json` serializes with JSON.stringify; the only value it is applied to
is a `QueryPayload`, a flat object whose single field holds a string, so the
serializer is embedded for flat string-valued objects. -/

inductive Json where
  | null
  | bool (b : Bool)
  | num (n : Int)
  | str (s : String)
  | obj (fields : List (String × Json))
deriving Repr

/-- lookup of a field in a JSON value known to be an object: `none` for a
missing field (and for a non-object base, where this function is not an
account of JavaScript member access — see `Json.memberAccess` for that,
including the throw on a null base). -/
def Json.lookupField : Json → String → Option Json
  | .obj fields, k => fields.lookup k
  | _, _ => none

/-- JavaScript member access `base.k`: on a `null` base it throws a
TypeError; on an object it yields the field's value, or `undefined`
(modelled `none`) when the field is missing; on the remaining JSON.parse
results (booleans, numbers, strings) it yields `undefined`.  An `error`
result models the thrown TypeError. -/
def Json.memberAccess : Json → String → Except String (Option Json)
  | .null, k =>
    .error ("TypeError: Cannot read properties of null (reading " ++ k ++ ")")
  | .obj fields, k => .ok (fields.lookup k)
  | _, _ => .ok none

/-- the shape the client statically assumes of a response: field `payload`
present, holding a string. -/
def isQueryPayloadShape (j : Json) : Bool :=
  match j.lookupField "payload" with
  | some (.str _) => true
  | _ => false

def queryPayloadToJson (q : QueryPayload) : Json :=
  Json.obj [("payload", Json.str q.payload)]

def jsonEscapeChar (c : Char) : String :=
  if c = Char.ofNat 34 then String.mk [Char.ofNat 92, Char.ofNat 34]
  else if c = Char.ofNat 92 then String.mk [Char.ofNat 92, Char.ofNat 92]
  else if c = Char.ofNat 10 then "\\n"
  else if c = Char.ofNat 9 then "\\t"
  else if c = Char.ofNat 13 then "\\r"
  else if c = Char.ofNat 8 then "\\b"
  else if c = Char.ofNat 12 then "\\f"
  else String.singleton c

/-- JSON.stringify of a string value. -/
def jsonRenderString (s : String) : String :=
  String.singleton (Char.ofNat 34) ++
    String.join (s.data.map jsonEscapeChar) ++ String.singleton (Char.ofNat 34)

/-- JSON.stringify of a flat object whose field values are strings. -/
def renderStringObj (fields : List (String × String)) : String :=
  String.singleton (Char.ofNat 0x7b) ++
    String.intercalate ","
      (fields.map (fun kv => jsonRenderString kv.1 ++ ":" ++ jsonRenderString kv.2)) ++
    String.singleton (Char.ofNat 0x7d)

/-- the response body `res.json(q)` produces for a QueryPayload `q`. -/
def resJsonBody (q : QueryPayload) : String :=
  renderStringObj [("payload", q.payload)]

/-! ## The server (server.ts)

express is embedded as a pure request-to-response function: the `app.use`
middleware runs on every request, then either the single registered route
(`GET /`) or the express 404 fallback. -/

inductive Method where
  | GET | POST | PUT | DELETE | OPTIONS
deriving Repr, DecidableEq

def Method.toStringRepr : Method → String
  | .GET => "GET"
  | .POST => "POST"
  | .PUT => "PUT"
  | .DELETE => "DELETE"
  | .OPTIONS => "OPTIONS"

structure Request where
  method : Method
  path : String
  query : List (String × String)
  body : Option String
deriving Repr, DecidableEq

structure Response where
  status : Nat
  headers : List (String × String)
  body : String
deriving Repr, DecidableEq

/-- res.setHeader: overwrite the header `k` with value `v`. -/
def setHeader (res : Response) (k v : String) : Response :=
  { res with headers := res.headers.filter (fun h => h.1 ≠ k) ++ [(k, v)] }

/-- a fresh express response before any handler runs: default status 200, no
headers, empty body. -/
def initialResponse : Response :=
  { status := 200, headers := [], body := "" }

def port : Nat := 3001

/-- server.ts lines 7-13, the `app.use` middleware:
res.setHeader("Access-Control-Allow-Origin", "*"), then next(). -/
def corsMiddleware (res : Response) : Response :=
  setHeader res "Access-Control-Allow-Origin" "*"

/-- server.ts lines 16-18: the value the route handler constructs. -/
def responseData : QueryPayload :=
  { payload := snakeCase "Server data returned successfully" }

/-- res.json(q): set the JSON content type and serialize `q` as the body. -/
def resJson (res : Response) (q : QueryPayload) : Response :=
  let res := setHeader res "Content-Type" "application/json; charset=utf-8"
  { res with body := resJsonBody q }

/-- server.ts lines 15-21, the `app.get("/")` handler:
`(_req, res) => res.json(responseData)`; the request parameter is unused. -/
def rootHandler (_req : Request) (res : Response) : Response :=
  resJson res responseData

/-- the express fallback for an unmatched request: 404 with a
`Cannot <METHOD> <path>` body. -/
def notFoundFallback (req : Request) (res : Response) : Response :=
  { res with
      status := 404
      body := "Cannot " ++ req.method.toStringRepr ++ " " ++ req.path }

/-- the whole server: middleware on every request, then routing. The module
has no mutable state, so the server is a pure function of the request. -/
def app (req : Request) : Response :=
  let res := corsMiddleware initialResponse
  if req.method = Method.GET ∧ req.path = "/" then rootHandler req res
  else notFoundFallback req res

/-- the GET request to the root endpoint with no query and no body. -/
def getRootRequest : Request :=
  { method := Method.GET, path := "/", query := [], body := none }

/-! ## Reading a response body back as JSON

A reader for the serialized form of flat string-valued objects, used to state
that the body, parsed as JSON, holds exactly the field `payload` as a
string.  It is executable, so claims about concrete bodies evaluate. -/

def unescapeChar (c : Char) : Option Char :=
  if c = Char.ofNat 34 then some (Char.ofNat 34)
  else if c = Char.ofNat 92 then some (Char.ofNat 92)
  else if c = Char.ofNat 47 then some (Char.ofNat 47)
  else if c = 'n' then some (Char.ofNat 10)
  else if c = 't' then some (Char.ofNat 9)
  else if c = 'r' then some (Char.ofNat 13)
  else if c = 'b' then some (Char.ofNat 8)
  else if c = 'f' then some (Char.ofNat 12)
  else none

/-- read a JSON string body up to its closing quote; returns the decoded
string and the rest of the input.  `fuel` bounds the recursion so the
definition is structural and evaluates inside the kernel. -/
def readStringBody (fuel : Nat) (cs : List Char) : Option (String × List Char) :=
  match fuel, cs with
  | 0, _ => none
  | _, [] => none
  | fuel + 1, c :: cs =>
    if c = Char.ofNat 34 then some ("", cs)
    else if c = Char.ofNat 92 then
      match cs with
      | [] => none
      | e :: cs2 =>
        match unescapeChar e with
        | some d =>
          (readStringBody fuel cs2).map (fun sr => (String.singleton d ++ sr.1, sr.2))
        | none => none
    else (readStringBody fuel cs).map (fun sr => (String.singleton c ++ sr.1, sr.2))

/-- read one `"key":"value"` pair. -/
def readPair (fuel : Nat) (cs : List Char) : Option ((String × String) × List Char) :=
  match cs with
  | q :: rest =>
    if q = Char.ofNat 34 then
      (readStringBody fuel rest).bind (fun kr =>
        match kr.2 with
        | colon :: r2 =>
          if colon = ':' then
            match r2 with
            | q2 :: r3 =>
              if q2 = Char.ofNat 34 then
                (readStringBody fuel r3).map (fun vr => ((kr.1, vr.1), vr.2))
              else none
            | [] => none
          else none
        | [] => none)
    else none
  | [] => none

/-- read a comma-separated sequence of pairs; `fuel` bounds the recursion. -/
def readPairs (fuel : Nat) (cs : List Char) : Option (List (String × String) × List Char) :=
  match fuel with
  | 0 => none
  | fuel + 1 =>
    (readPair fuel cs).bind (fun kvr =>
      match kvr.2 with
      | c :: rest2 =>
        if c = ',' then
          (readPairs fuel rest2).map (fun fr => (kvr.1 :: fr.1, fr.2))
        else some ([kvr.1], c :: rest2)
      | [] => some ([kvr.1], []))

/-- parse the serialization of a flat JSON object with string values into its
field list; any other input gives `none`. -/
def parseFlatStringObj (s : String) : Option (List (String × String)) :=
  match s.data with
  | c :: rest =>
    if c = Char.ofNat 0x7b then
      if rest = [Char.ofNat 0x7d] then some []
      else
        (readPairs (s.length + 1) rest).bind (fun fr =>
          match fr.2 with
          | [e] => if e = Char.ofNat 0x7d then some fr.1 else none
          | _ => none)
    else none
  | [] => none

/-! ## The client (App.tsx)

The onClick handler is a promise chain over an abstract network: `fetch`
issues one request to a fixed URL; on resolution the parsed JSON's `payload`
member is accessed (which throws on a null base) and logged; there is no
catch, so any rejection — network, parse, or a TypeError thrown inside the
logging callback — is unhandled. -/

/-- the URL in the onClick handler: fetch("http://localhost:3001/", ...). -/
def clientFetchUrl : String := "http://localhost:3001/"

/-- outcome of `fetch(url, ...).then(response => response.json())`:
either a parsed JSON value or a rejection (network failure or parse
failure). -/
inductive FetchOutcome where
  | success (data : Json)
  | failure (err : String)

/-- observable behaviour of one click: the requests issued, the values
passed to console.log (`none` models logging `undefined`), and the
rejection left unhandled, if any. -/
structure ClientTrace where
  requests : List String
  logs : List (Option Json)
  unhandledRejection : Option String

/-- the final callback of the promise chain,
`(data: QueryPayload) => console.log(data.payload)`: the member access
`data.payload` may throw (null base), in which case nothing is logged and
the rejection is left unhandled. -/
def logPayloadStep (data : Json) : ClientTrace :=
  match data.memberAccess "payload" with
  | .ok v =>
    { requests := [clientFetchUrl]
      logs := [v]
      unhandledRejection := none }
  | .error e =>
    { requests := [clientFetchUrl]
      logs := []
      unhandledRejection := some e }

/-- App.tsx onClick: fetch(clientFetchUrl, then response.json(), then
console.log(data.payload); no catch branch, no retry, no timeout. -/
def onClick (net : String → FetchOutcome) : ClientTrace :=
  match net clientFetchUrl with
  | .success data => logPayloadStep data
  | .failure e =>
    { requests := [clientFetchUrl]
      logs := []
      unhandledRejection := some e }

/-! ## The nested-repository (git submodule) mechanism

Modelled from the spec: the mechanism itself is git, external tooling; the
README's "Add a Git Submodule" section documents clone, pull,
`git submodule init` / `git submodule update` and the
`--recurse-submodules` flag.  The outer repository records a pointer (path,
URL, pinned revision); only the explicit update materializes the external
unit's files. -/

structure SubmoduleRecord where
  path : String
  url : String
  pinnedRev : Nat
deriving Repr, DecidableEq

/-- Modelled from the spec: the external project, independently versioned;
`trackedFiles r` is its file list at revision `r`. -/
structure ExternalUnit where
  trackedFiles : Nat → List String

/-- a checkout of the outer repository: the recorded pointer and the files
actually present in the embedded directory. -/
structure OuterCheckout where
  pointer : SubmoduleRecord
  submoduleFiles : List String

/-- Modelled from the spec: `git clone`, with or without
`--recurse-submodules`; without it the embedded directory stays empty while
the pointer entry is present. -/
def cloneOuter (ext : ExternalUnit) (rec : SubmoduleRecord)
    (recurseSubmodules : Bool) : OuterCheckout :=
  { pointer := rec
    submoduleFiles :=
      if recurseSubmodules then ext.trackedFiles rec.pinnedRev else [] }

/-- Modelled from the spec: a routine `git pull` on the outer repository; it
may bring new pointer information but never touches the embedded
directory's files. -/
def pullOuter (c : OuterCheckout) (newPointer : SubmoduleRecord) : OuterCheckout :=
  { c with pointer := newPointer }

/-- Modelled from the spec: `git submodule update`, populating the embedded
directory with the external unit's tracked files at the pinned revision. -/
def submoduleUpdate (ext : ExternalUnit) (c : OuterCheckout) : OuterCheckout :=
  { c with submoduleFiles := ext.trackedFiles c.pointer.pinnedRev }

/-! ## Claims -/

/-- C1: the server's response to a GET of the root endpoint with no body and
no query parameters has status 200 and the exact body
`\x7b"payload":"server_data_returned_successfully"\x7d`, whose JSON parse
holds exactly one field, `payload`, with the snake-cased phrase as its
string value. -/
theorem c1_get_root_response :
    (app getRootRequest).status = 200 ∧
    (app getRootRequest).body =
      resJsonBody { payload := "server_data_returned_successfully" } ∧
    parseFlatStringObj (app getRootRequest).body =
      some [("payload", "server_data_returned_successfully")] ∧
    responseData.payload = snakeCase "Server data returned successfully" :=
  ⟨rfl, by decide, by decide, rfl⟩

/-- C2: every response the server produces, for every request regardless of
path or method, carries the header Access-Control-Allow-Origin: *. -/
theorem c2_cors_header_on_every_response (req : Request) :
    ("Access-Control-Allow-Origin", "*") ∈ (app req).headers := by
  unfold app rootHandler resJson notFoundFallback corsMiddleware setHeader initialResponse
  split <;> simp

/-- C3: every value the server's payload construction produces satisfies the
client's shape expectation for QueryPayload — the field `payload` is present
and is a string — so the client's access to `data.payload` is defined; in
particular this holds of `responseData`. -/
theorem c3_server_value_matches_client_shape :
    isQueryPayloadShape (queryPayloadToJson responseData) = true ∧
    (∀ q : QueryPayload, isQueryPayloadShape (queryPayloadToJson q) = true) ∧
    (∀ q : QueryPayload,
      (queryPayloadToJson q).lookupField "payload" = some (Json.str q.payload)) :=
  ⟨rfl, fun _ => rfl, fun _ => rfl⟩

/-- C4: the fetch-payload operation takes no input parameters — the handler
ignores its request — and always succeeds: every invocation yields the
serialization of a QueryPayload on the default 200 status, and no error
branch exists in the handler. -/
theorem c4_fetch_payload_total (req reqOther : Request) (res : Response) :
    rootHandler req res = rootHandler reqOther res ∧
    (∃ q : QueryPayload,
      rootHandler req res = resJson res q ∧
      (rootHandler req res).body = resJsonBody q) ∧
    (rootHandler req res).status = res.status :=
  ⟨rfl, ⟨responseData, rfl, rfl⟩, rfl⟩

/-- C5: per click the client issues exactly one request, to the fixed URL;
when the chain succeeds — the response arrives, its JSON parses and the
member access `data.payload` yields a value — it logs exactly that value
and nothing else; every failure is unhandled: a rejection of fetch or of
response.json, and equally a TypeError thrown by the member access itself,
leaves nothing logged and surfaces as an unhandled rejection — there is no
catch branch, no retry, no timeout. -/
theorem c5_client_click_behaviour (net : String → FetchOutcome) :
    (onClick net).requests = [clientFetchUrl] ∧
    (∀ data v, net clientFetchUrl = FetchOutcome.success data →
      data.memberAccess "payload" = Except.ok v →
      (onClick net).logs = [v] ∧
      (onClick net).unhandledRejection = none) ∧
    (∀ data e, net clientFetchUrl = FetchOutcome.success data →
      data.memberAccess "payload" = Except.error e →
      (onClick net).logs = [] ∧
      (onClick net).unhandledRejection = some e) ∧
    (∀ e, net clientFetchUrl = FetchOutcome.failure e →
      (onClick net).logs = [] ∧
      (onClick net).unhandledRejection = some e) := by
  refine ⟨?_, ?_, ?_, ?_⟩
  · unfold onClick
    cases net clientFetchUrl with
    | success data => cases data <;> rfl
    | failure e => rfl
  · intro data v hs hv
    have h1 : onClick net = logPayloadStep data := by
      unfold onClick
      rw [hs]
    have h2 : logPayloadStep data =
        { requests := [clientFetchUrl], logs := [v], unhandledRejection := none } := by
      unfold logPayloadStep
      rw [hv]
    rw [h1, h2]
    exact ⟨rfl, rfl⟩
  · intro data e hs he
    have h1 : onClick net = logPayloadStep data := by
      unfold onClick
      rw [hs]
    have h2 : logPayloadStep data =
        { requests := [clientFetchUrl], logs := [], unhandledRejection := some e } := by
      unfold logPayloadStep
      rw [he]
    rw [h1, h2]
    exact ⟨rfl, rfl⟩
  · intro e h
    have h1 : onClick net =
        { requests := [clientFetchUrl], logs := [], unhandledRejection := some e } := by
      unfold onClick
      rw [h]
    rw [h1]
    exact ⟨rfl, rfl⟩

/-- witness for C5 at a concrete network delivering a well-formed payload
object. -/
theorem c5_client_click_behaviour_witness :
    (onClick (fun _ => FetchOutcome.success (Json.obj [("payload", Json.str "x")]))).requests =
      [clientFetchUrl] ∧
    (onClick (fun _ => FetchOutcome.success (Json.obj [("payload", Json.str "x")]))).logs =
      [some (Json.str "x")] ∧
    (onClick (fun _ => FetchOutcome.success (Json.obj [("payload", Json.str "x")]))).unhandledRejection =
      none := by
  have h := c5_client_click_behaviour
    (fun _ => FetchOutcome.success (Json.obj [("payload", Json.str "x")]))
  exact ⟨h.1,
    (h.2.1 (Json.obj [("payload", Json.str "x")]) (some (Json.str "x")) rfl rfl).1,
    (h.2.1 (Json.obj [("payload", Json.str "x")]) (some (Json.str "x")) rfl rfl).2⟩

/-- C6: determinism — for any two requests to the fetch-payload endpoint
(GET of the root path), whatever their query or body and whatever requests
came before, the responses are identical; the embedded server is a pure
function with no state carried across requests. -/
theorem c6_response_deterministic (r1 r2 : Request)
    (h1m : r1.method = Method.GET) (h1p : r1.path = "/")
    (h2m : r2.method = Method.GET) (h2p : r2.path = "/") :
    app r1 = app r2 := by
  unfold app
  rw [if_pos ⟨h1m, h1p⟩, if_pos ⟨h2m, h2p⟩]
  rfl

/-- witness for C6: two root GET requests differing in query and body get
the same response. -/
theorem c6_response_deterministic_witness :
    ({ method := Method.GET, path := "/", query := [("a", "1")],
       body := some "ignored" } : Request).method = Method.GET ∧
    app { method := Method.GET, path := "/", query := [("a", "1")],
          body := some "ignored" } = app getRootRequest :=
  ⟨rfl, c6_response_deterministic _ getRootRequest rfl rfl rfl rfl⟩

/-- C7: the shared QueryPayload declaration is published once; the type the
server's response value conforms to and the type the client reads the
response as are the same type, a record with the single text field
`payload`. -/
theorem c7_shared_type_single_definition :
    ServerQueryPayload = ClientQueryPayload ∧
    ServerQueryPayload = QueryPayload ∧
    (∀ q : QueryPayload, q = QueryPayload.mk q.payload) :=
  ⟨rfl, rfl, fun _ => rfl⟩

/-- C8: cloning the outer repository without the recurse flag leaves the
embedded directory empty with only the pointer entry present; a routine pull
never changes the embedded directory's files; only the explicit submodule
update populates it, with the external unit's tracked files at the pinned
revision. -/
theorem c8_submodule_mechanism (ext : ExternalUnit) (rec : SubmoduleRecord)
    (c : OuterCheckout) (newPointer : SubmoduleRecord) :
    (cloneOuter ext rec false).submoduleFiles = [] ∧
    (cloneOuter ext rec false).pointer = rec ∧
    (pullOuter c newPointer).submoduleFiles = c.submoduleFiles ∧
    (submoduleUpdate ext c).submoduleFiles =
      ext.trackedFiles c.pointer.pinnedRev ∧
    (cloneOuter ext rec true).submoduleFiles = ext.trackedFiles rec.pinnedRev :=
  ⟨rfl, rfl, rfl, rfl, rfl⟩

/-- C9: the URL the client fetches is exactly the scheme-host prefix, the
server's port constant 3001 and the root path the server's one route
handles, and the server answers that request with 200. -/
theorem c9_port_and_path_agreement :
    clientFetchUrl = "http://localhost:" ++ toString port ++ "/" ∧
    port = 3001 ∧
    getRootRequest.path = "/" ∧
    (∀ net, (onClick net).requests = [clientFetchUrl]) ∧
    (app getRootRequest).status = 200 := by
  refine ⟨by decide, rfl, rfl, ?_, rfl⟩
  intro net
  unfold onClick
  cases net clientFetchUrl with
  | success data => cases data <;> rfl
  | failure e => rfl

/-- C10 counterexample: the response body `null` parses as JSON and lacks a
`payload` field, yet the click handler logs nothing — in particular not the
undefined value — and does raise an error: the member access on the null
base throws a TypeError that is left as an unhandled rejection, refuting
the claim that every such response is logged as undefined without error. -/
theorem c10_null_response_refutes_claim :
    Json.null.lookupField "payload" = none ∧
    (onClick (fun _ => FetchOutcome.success Json.null)).logs = [] ∧
    ¬ (onClick (fun _ => FetchOutcome.success Json.null)).logs = [none] ∧
    ¬ (onClick (fun _ => FetchOutcome.success Json.null)).unhandledRejection = none :=
  ⟨rfl, rfl, fun h => List.noConfusion h, by decide⟩

/-- C10 (amended): the client applies no runtime shape check; when the
fetch succeeds with parsed JSON that is not `null` and lacks a `payload`
field, the member access yields undefined rather than throwing, and the
click handler logs the undefined value and raises no error — while for the
parsed value `null` the access throws and surfaces as an unhandled
rejection (see the counterexample). -/
theorem c10_no_runtime_validation_amended (net : String → FetchOutcome) (data : Json)
    (hs : net clientFetchUrl = FetchOutcome.success data)
    (hnn : data ≠ Json.null)
    (hm : data.lookupField "payload" = none) :
    (onClick net).logs = [none] ∧ (onClick net).unhandledRejection = none := by
  have hacc : data.memberAccess "payload" = Except.ok none := by
    cases data with
    | null => exact absurd rfl hnn
    | bool b => rfl
    | num n => rfl
    | str s => rfl
    | obj fields =>
      simp only [Json.memberAccess]
      simp only [Json.lookupField] at hm
      rw [hm]
  have h1 : onClick net = logPayloadStep data := by
    unfold onClick
    rw [hs]
  have h2 : logPayloadStep data =
      { requests := [clientFetchUrl], logs := [none], unhandledRejection := none } := by
    unfold logPayloadStep
    rw [hacc]
  rw [h1, h2]
  exact ⟨rfl, rfl⟩

/-- witness for the amended C10 at the concrete response body, the empty
JSON object. -/
theorem c10_no_runtime_validation_amended_witness :
    (onClick (fun _ => FetchOutcome.success (Json.obj []))).logs = [none] ∧
    (onClick (fun _ => FetchOutcome.success (Json.obj []))).unhandledRejection = none :=
  c10_no_runtime_validation_amended (fun _ => FetchOutcome.success (Json.obj []))
    (Json.obj []) rfl (fun h => Json.noConfusion h) rfl

end MonorepoExample
